/-
Verification of the JOS kernel monitor (kern/monitor.c) and the user-space
file client (lib/file.c) against their natural-language specification.

The C code is shallowly embedded: machine words are `Nat` (32-bit overflow
made explicit by masking where the code relies on it), `panic` is modelled
as `Option.none`, and external collaborators (readline, fd_alloc, fsipc's
transport, debuginfo_eip) are oracles passed in as parameters or records.
-/
import Mathlib

set_option maxRecDepth 10000

/-! ### Execution context (trap frame) -/

/-- Modelled from the spec: the execution context `struct Trapframe`
(declared in inc/trap.h, which is not part of the two source files).
Fields are the saved processor state; `tf_regs` stands for the block of
saved general-purpose registers. All words are natural numbers and the
flags register is a 32-bit quantity (`tf_eflags < 2 ^ 32` in the real
machine). -/
structure Trapframe where
  tf_regs : List Nat
  tf_es : Nat
  tf_ds : Nat
  tf_trapno : Nat
  tf_err : Nat
  tf_eip : Nat
  tf_cs : Nat
  tf_eflags : Nat
  tf_esp : Nat
  tf_ss : Nat
deriving DecidableEq

/-- Modelled from the spec: trap vector of the x86 debug exception
(`T_DEBUG` in inc/trap.h, not in the sources). -/
def T_DEBUG : Nat := 1

/-- Modelled from the spec: trap vector of the x86 breakpoint exception
(`T_BRKPT` in inc/trap.h, not in the sources). -/
def T_BRKPT : Nat := 3

/-- Embedding of `mon_step` (kern/monitor.c, lines 92-107).
`none` models `panic`; otherwise the result is the returned status
together with the updated trap frame.  `eflags |= 0x100` then
`eflags &= ~0x10000` on a 32-bit register; the C complement `~0x10000`
is the 32-bit mask `0xFFFEFFFF`. -/
def mon_step (tf : Trapframe) : Option (Int × Trapframe) :=
  if tf.tf_trapno ≠ T_DEBUG ∧ tf.tf_trapno ≠ T_BRKPT then
    none
  else
    let eflags := tf.tf_eflags
    let eflags := eflags ||| 0x100
    let eflags := eflags &&& 0xFFFEFFFF
    some (-2, { tf with tf_eflags := eflags })

/-- Embedding of `mon_exitstep` (kern/monitor.c, lines 110-128).
The first guard is the literal condition of line 111,
`(tf->tf_trapno != T_DEBUG) && (tf->tf_trapno == T_BRKPT)`; the second
is the single-step check of line 115.  `eflags |= 0x10000` then
`eflags &= ~0x100`; the C complement `~0x100` is the 32-bit mask
`0xFFFFFEFF`. -/
def mon_exitstep (tf : Trapframe) : Option (Int × Trapframe) :=
  if tf.tf_trapno ≠ T_DEBUG ∧ tf.tf_trapno = T_BRKPT then
    none
  else if tf.tf_eflags &&& 0x100 = 0 then
    none
  else
    let eflags := tf.tf_eflags
    let eflags := eflags ||| 0x10000
    let eflags := eflags &&& 0xFFFFFEFF
    some (-2, { tf with tf_eflags := eflags })

/-! ### Bit-level helper lemmas -/

lemma testBit_c100 (i : Nat) : (0x100 : Nat).testBit i = decide (i = 8) := by
  by_cases hi : i = 8
  · subst hi; decide
  · have h : (0x100 : Nat) = 2 ^ 8 := by norm_num
    rw [h]
    simp [Nat.testBit_two_pow_of_ne (Ne.symm hi), hi]

lemma testBit_c10000 (i : Nat) : (0x10000 : Nat).testBit i = decide (i = 16) := by
  by_cases hi : i = 16
  · subst hi; decide
  · have h : (0x10000 : Nat) = 2 ^ 16 := by norm_num
    rw [h]
    simp [Nat.testBit_two_pow_of_ne (Ne.symm hi), hi]

lemma testBit_maskFFFEFFFF (i : Nat) :
    (0xFFFEFFFF : Nat).testBit i = (decide (i < 32) && !decide (i = 16)) := by
  have h : (0xFFFEFFFF : Nat) = (2 ^ 32 - 1) ^^^ 2 ^ 16 := by decide
  rw [h, Nat.testBit_xor, Nat.testBit_two_pow_sub_one]
  by_cases hi : i = 16
  · subst hi; decide
  · have h2 : Nat.testBit 65536 i = false := by
      have he : (65536 : Nat) = 2 ^ 16 := by norm_num
      rw [he]; exact Nat.testBit_two_pow_of_ne (Ne.symm hi)
    simp [h2, hi]

lemma testBit_maskFFFFFEFF (i : Nat) :
    (0xFFFFFEFF : Nat).testBit i = (decide (i < 32) && !decide (i = 8)) := by
  have h : (0xFFFFFEFF : Nat) = (2 ^ 32 - 1) ^^^ 2 ^ 8 := by decide
  rw [h, Nat.testBit_xor, Nat.testBit_two_pow_sub_one]
  by_cases hi : i = 8
  · subst hi; decide
  · have h2 : Nat.testBit 256 i = false := by
      have he : (256 : Nat) = 2 ^ 8 := by norm_num
      rw [he]; exact Nat.testBit_two_pow_of_ne (Ne.symm hi)
    simp [h2, hi]

lemma testBit_high_false {e i : Nat} (h : e < 2 ^ 32) (hi : 32 ≤ i) :
    e.testBit i = false := by
  apply Nat.testBit_lt_two_pow
  calc e < 2 ^ 32 := h
    _ ≤ 2 ^ i := Nat.pow_le_pow_right (by norm_num) hi

/-- Flags register after `mon_step`: bit 8 set, bit 16 cleared, every
other bit of the 32-bit register unchanged. -/
lemma step_eflags_bits (e : Nat) (h32 : e < 2 ^ 32) (i : Nat) :
    ((e ||| 0x100) &&& 0xFFFEFFFF).testBit i =
      if i = 8 then true else if i = 16 then false else e.testBit i := by
  rw [Nat.testBit_land, Nat.testBit_lor, testBit_c100, testBit_maskFFFEFFFF]
  by_cases h8 : i = 8
  · subst h8; simp
  · by_cases h16 : i = 16
    · subst h16; simp
    · by_cases hlt : i < 32
      · simp [h8, h16, hlt]
      · have := testBit_high_false (i := i) h32 (by omega)
        simp [h8, h16, hlt, this]

/-- Flags register after `mon_exitstep`: bit 16 set, bit 8 cleared, every
other bit of the 32-bit register unchanged. -/
lemma exitstep_eflags_bits (e : Nat) (h32 : e < 2 ^ 32) (i : Nat) :
    ((e ||| 0x10000) &&& 0xFFFFFEFF).testBit i =
      if i = 16 then true else if i = 8 then false else e.testBit i := by
  rw [Nat.testBit_land, Nat.testBit_lor, testBit_c10000, testBit_maskFFFFFEFF]
  by_cases h16 : i = 16
  · subst h16; simp
  · by_cases h8 : i = 8
    · subst h8; simp
    · by_cases hlt : i < 32
      · simp [h8, h16, hlt]
      · have := testBit_high_false (i := i) h32 (by omega)
        simp [h8, h16, hlt, this]

lemma masked_lt_32 (e m : Nat) (hm : m < 2 ^ 32) : e &&& m < 2 ^ 32 := by
  have h : e &&& m ≤ m := Nat.and_le_right
  omega

lemma land_c100_eq_zero_iff (e : Nat) : e &&& 0x100 = 0 ↔ e.testBit 8 = false := by
  constructor
  · intro h
    have := congrArg (fun x => Nat.testBit x 8) h
    simpa [Nat.testBit_land, testBit_c100] using this
  · intro h
    apply Nat.eq_of_testBit_eq
    intro i
    simp only [Nat.testBit_land, testBit_c100, Nat.zero_testBit]
    by_cases hi : i = 8
    · subst hi; simp [h]
    · simp [hi]

/-! ### Stack unwinder (mon_backtrace, kern/monitor.c lines 61-89) -/

/-- Symbol information record `struct Eipdebuginfo` (kern/kdebug.h, not in
the sources); the unwinder only stores and prints it, so the exact field
types are immaterial to the claims. -/
structure Eipdebuginfo where
  eip_file : String
  eip_line : Nat
  eip_fn_namelen : Nat
  eip_fn_name : String
  eip_fn_addr : Nat
deriving DecidableEq, Inhabited

/-- One printed backtrace line: frame pointer, return address, the five
argument words, and the resolved symbol information. -/
structure Frame where
  f_ebp : Nat
  f_eip : Nat
  f_args : List Nat
  f_info : Eipdebuginfo
deriving DecidableEq

/-- The frame printed for frame pointer `ebp`: the return address is the
word at `ebp + 4`, the five argument words are the words at
`ebp + 8 .. ebp + 24` (kern/monitor.c lines 73-85). -/
def mkFrame (mem : Nat → Nat) (info : Eipdebuginfo) (ebp : Nat) : Frame :=
  { f_ebp := ebp
    f_eip := mem (ebp + 4)
    f_args := [mem (ebp + 8), mem (ebp + 12), mem (ebp + 16),
               mem (ebp + 20), mem (ebp + 24)]
    f_info := info }

/-- Embedding of the loop of `mon_backtrace` (kern/monitor.c lines 70-87).
`mem` is word-addressed memory (an oracle: `mem a` is the 32-bit word at
byte address `a`), `dbg` is the external symbol resolver `debuginfo_eip`
(`none` = lookup failure).  The result is the list of printed frames;
`none` models the `panic` on a failed symbol lookup (line 72).  `fuel`
bounds the number of iterations observed, since an arbitrary `mem` can
produce an unboundedly long chain; every claim instantiates `fuel` with
the exact length of the chain under consideration, so the fuel-exhaustion
branch is never reached under the claims' hypotheses. -/
def backtraceLoop (mem : Nat → Nat) (dbg : Nat → Option Eipdebuginfo) :
    Nat → Nat → Option (List Frame)
  | 0, ebp => if ebp = 0 then some [] else none
  | fuel + 1, ebp =>
    if ebp = 0 then some []
    else
      match dbg (mem (ebp + 4)) with
      | none => none
      | some info =>
        (backtraceLoop mem dbg fuel (mem ebp)).map (fun rest => mkFrame mem info ebp :: rest)

/-! ### Command dispatcher (runcmd, kern/monitor.c lines 137-174) -/

/-- The whitespace set of `#define WHITESPACE "\t\r\n "` (line 134). -/
def WHITESPACE : List Char := ['\t', '\r', '\n', ' ']

/-- Character class test used by the tokenizer via `strchr(WHITESPACE, c)`. -/
def isWS (c : Char) : Bool := WHITESPACE.contains c

/-- The argument-vector capacity `#define MAXARGS 16` (line 135). -/
def MAXARGS : Nat := 16

/-- Embedding of the tokenizing loop of `runcmd` (lines 145-163): gobble a
whitespace run, stop at the terminator, otherwise record the token start
(rejecting it when `argc == MAXARGS-1`, line 155, in which case the C code
prints the too-many-arguments diagnostic and returns 0 -- here `none`) and
skip past the token.  `fuel` makes the recursion structural; callers pass
`buf.length + 1`, which is always sufficient because each iteration
consumes at least one character. -/
def parseTokens (fuel : Nat) (buf : List Char) (argc : Nat) :
    Option (List (List Char)) :=
  match fuel with
  | 0 => none
  | fuel + 1 =>
    match buf.dropWhile isWS with
    | [] => some []
    | c :: cs =>
      if argc = MAXARGS - 1 then none
      else
        let tok := (c :: cs).takeWhile (fun x => !(isWS x))
        let rest := (c :: cs).dropWhile (fun x => !(isWS x))
        (parseTokens fuel rest (argc + 1)).map (fun ts => tok :: ts)

/-- The same scan with the `MAXARGS` cap removed: the plain
whitespace-separated token list of a line.  Used to state how many tokens
an input line has. -/
def splitF (fuel : Nat) (buf : List Char) : List (List Char) :=
  match fuel with
  | 0 => []
  | fuel + 1 =>
    match buf.dropWhile isWS with
    | [] => []
    | c :: cs =>
      (c :: cs).takeWhile (fun x => !(isWS x)) ::
        splitF fuel ((c :: cs).dropWhile (fun x => !(isWS x)))

/-- Whitespace-separated tokens of a line. -/
def splitWS (buf : List Char) : List (List Char) := splitF (buf.length + 1) buf

/-- Observable dispatcher events: the diagnostics printed by `runcmd` and
which command handler, if any, it invoked. -/
inductive CmdEvent where
  | tooManyArgs (max : Nat)
  | unknownCmd (name : List Char)
  | invoked (name : String)
deriving DecidableEq

/-- A command handler: receives the parsed argument vector and the trap
frame, returns the status and the (possibly updated) trap frame, or
`none` for a `panic`. -/
def Handler : Type := List String → Trapframe → Option (Int × Trapframe)

/-- Oracles threaded through the monitor: the memory image, the symbol
resolver, the initial frame pointer delivered by `read_ebp()`, and the
iteration bound for the unwinder. -/
structure KernEnv where
  mem : Nat → Nat
  dbg : Nat → Option Eipdebuginfo
  ebp0 : Nat
  btFuel : Nat

/-- Handler of the `backtrace` command: runs the unwinder and returns 0,
or panics if a symbol lookup failed (kern/monitor.c line 88). -/
def monBacktraceCmd (env : KernEnv) : Handler := fun _ tf =>
  (backtraceLoop env.mem env.dbg env.btFuel env.ebp0).map (fun _ => (0, tf))

/-- The static command table (kern/monitor.c lines 25-31), in registration
order.  `mon_help` and `mon_kerninfo` only print and return 0. -/
def commands (env : KernEnv) : List (String × Handler) :=
  [("help", fun _ tf => some (0, tf)),
   ("kerninfo", fun _ tf => some (0, tf)),
   ("backtrace", monBacktraceCmd env),
   ("step", fun _ tf => mon_step tf),
   ("exitstep", fun _ tf => mon_exitstep tf)]

/-- Embedding of `runcmd` (kern/monitor.c lines 137-174).  The first
component lists the dispatcher-level events (diagnostics printed, handler
invoked); the second is the returned status and trap frame (`none` =
panic inside the invoked handler).  Tokenizer overflow prints the
diagnostic naming `MAXARGS` and returns 0 (lines 155-158); zero tokens
return 0 silently (line 166); an unmatched name prints the
unknown-command diagnostic and returns 0 (lines 172-173); otherwise the
first table entry with the exact name runs (lines 168-171). -/
def runcmd (env : KernEnv) (buf : List Char) (tf : Trapframe) :
    List CmdEvent × Option (Int × Trapframe) :=
  match parseTokens (buf.length + 1) buf 0 with
  | none => ([CmdEvent.tooManyArgs MAXARGS], some (0, tf))
  | some [] => ([], some (0, tf))
  | some (a0 :: rest) =>
    match (commands env).find? (fun c => c.1.toList = a0) with
    | some c => ([CmdEvent.invoked c.1], c.2 ((a0 :: rest).map (fun t => String.mk t)) tf)
    | none => ([CmdEvent.unknownCmd a0], some (0, tf))

/-! ### Monitor loop (monitor, kern/monitor.c lines 176-193) -/

/-- Outcome of running the monitor loop against a finite schedule of
`readline` results (`none` models `readline` returning NULL). -/
inductive MonOutcome where
  | exited (tf : Trapframe)
  | awaiting (tf : Trapframe)
  | panicked
deriving DecidableEq

/-- Embedding of the `while (1)` loop of `monitor` (lines 187-192) run
against a finite list of `readline` results: a NULL line is skipped, a
line is dispatched through `runcmd`, and the loop breaks exactly when the
dispatched status is negative (`if (runcmd(buf, tf) < 0) break;`).
`awaiting` marks the point where the schedule is exhausted and the loop
blocks on the next `readline`. -/
def monitorLoop (env : KernEnv) :
    List (Option (List Char)) → Trapframe → MonOutcome
  | [], tf => MonOutcome.awaiting tf
  | none :: rest, tf => monitorLoop env rest tf
  | some buf :: rest, tf =>
    match (runcmd env buf tf).2 with
    | none => MonOutcome.panicked
    | some (r, tf') =>
      if r < 0 then MonOutcome.exited tf' else monitorLoop env rest tf'

/-! ### File client (lib/file.c) -/

/-- Modelled from the spec: `PGSIZE` (inc/mmu.h, not in the sources), the
x86 page size. -/
def PGSIZE : Nat := 4096

/-- Modelled from the spec: `sizeof(int)` on the 32-bit x86 target of JOS. -/
def sizeof_int : Nat := 4

/-- Modelled from the spec: `sizeof(size_t)` on the 32-bit x86 target of
JOS. -/
def sizeof_size_t : Nat := 4

/-- Modelled from the spec: `MAXPATHLEN` (inc/fs.h, not in the sources),
the bound on path strings in the open request. -/
def MAXPATHLEN : Nat := 1024

/-- Modelled from the spec: the error number `E_BAD_PATH` (inc/error.h,
not in the sources); `open` returns its negation. -/
def E_BAD_PATH : Int := 10

/-- Modelled from the spec: the request tag `FSREQ_OPEN` (inc/fs.h). -/
def FSREQ_OPEN : Nat := 1

/-- Modelled from the spec: the request tag `FSREQ_READ` (inc/fs.h). -/
def FSREQ_READ : Nat := 3

/-- Modelled from the spec: the request tag `FSREQ_WRITE` (inc/fs.h). -/
def FSREQ_WRITE : Nat := 4

/-- Modelled from the spec: the request tag `FSREQ_STAT` (inc/fs.h). -/
def FSREQ_STAT : Nat := 5

/-- The request fields of the shared page-sized union `fsipcbuf`
(lib/file.c line 7, layout from inc/fs.h), one group per request variant
used by the claims.  Response variants are delivered by the server and
are modelled as oracle data in the per-operation environments instead. -/
structure FsBuf where
  open_req_path : List Char
  open_req_omode : Int
  read_req_fileid : Int
  read_req_n : Nat
  write_req_fileid : Int
  write_req_n : Nat
  write_req_buf : List Nat
  stat_req_fileid : Int
deriving DecidableEq

/-- Client-visible side effects of a file-client call: the shared request
buffer, the ordered list of request tags handed to `fsipc`, the number of
`fd_alloc` invocations, and the `fd_close` calls made (descriptor index,
flush flag). -/
structure ClientState where
  buf : FsBuf
  sent : List Nat
  allocCalls : Nat
  closed : List (Nat × Int)
deriving DecidableEq

/-- Modelled from the spec: a file descriptor (lib/fd.c, not in the
sources) — its table index and the server-assigned file id stored in
`fd_file.id`. -/
structure Fd where
  num : Nat
  fileId : Int
deriving DecidableEq

/-- Modelled from the spec: `fd2num` (lib/fd.c, not in the sources)
returns the descriptor's table index. -/
def fd2num (fd : Fd) : Int := fd.num

/-- Oracle outcomes for one `open` call: the result of the external
descriptor allocator `fd_alloc` (`Except.error r` is a negative error
code) and the server's reply to the `FSREQ_OPEN` request. -/
structure OpenEnv where
  fd_alloc : Except Int Fd
  fsipc_open : Int

/-- Embedding of `open` (lib/file.c lines 63-104): reject a path of
`MAXPATHLEN` or more characters with `-E_BAD_PATH` before anything else
happens; call `fd_alloc`, propagating its error; copy the path and mode
into the shared buffer; send `FSREQ_OPEN`; on a negative reply release the
descriptor via `fd_close(fd, 0)` and propagate the reply, otherwise return
`fd2num(fd)`. -/
def openF (env : OpenEnv) (path : List Char) (mode : Int) (st : ClientState) :
    Int × ClientState :=
  if MAXPATHLEN ≤ path.length then
    (-E_BAD_PATH, st)
  else
    match env.fd_alloc with
    | Except.error r => (r, { st with allocCalls := st.allocCalls + 1 })
    | Except.ok fd =>
      let st1 := { st with
        allocCalls := st.allocCalls + 1
        buf := { st.buf with open_req_path := path, open_req_omode := mode } }
      let st2 := { st1 with sent := st1.sent ++ [FSREQ_OPEN] }
      if env.fsipc_open < 0 then
        (env.fsipc_open, { st2 with closed := st2.closed ++ [(fd.num, 0)] })
      else
        (fd2num fd, st2)

/-- The write-record payload capacity `max_buf_size` of `devfile_write`
(lib/file.c line 165): `PGSIZE - (sizeof(int) + sizeof(size_t))`. -/
def max_buf_size : Nat := PGSIZE - (sizeof_int + sizeof_size_t)

/-- Oracle outcome for one `devfile_write` call: the server's reply. -/
structure WriteEnv where
  fsipc_write : Int
deriving DecidableEq

/-- Embedding of `devfile_write` (lib/file.c lines 152-179).  `bufF` is
the caller's byte buffer as an oracle (`bufF i` = byte `i`).  The request
count is truncated to `max_buf_size` (line 168), that many bytes are
copied into the request's inline buffer (line 169), the request is sent,
a negative reply is returned as-is, and the asserts of lines 174-175
(`r <= n`, `r <= PGSIZE`, with `r` promoted to `size_t`) fail as a panic
(`none`). -/
def devfile_write (env : WriteEnv) (fileid : Int) (bufF : Nat → Nat) (n : Nat)
    (st : ClientState) : Option Int × ClientState :=
  let req_n := if max_buf_size < n then max_buf_size else n
  let st1 := { st with
    buf := { st.buf with
      write_req_fileid := fileid
      write_req_n := req_n
      write_req_buf := (List.range req_n).map bufF }
    sent := st.sent ++ [FSREQ_WRITE] }
  let r := env.fsipc_write
  if r < 0 then (some r, st1)
  else if r ≤ (n : Int) ∧ r ≤ (PGSIZE : Int) then (some r, st1)
  else (none, st1)

/-- Oracle outcomes for one `devfile_read` call: the server's reply and
the reply bytes it left in `fsipcbuf.readRet.ret_buf`. -/
structure ReadEnv where
  fsipc_read : Int
  ret_buf : Nat → Nat

/-- Embedding of `devfile_read` (lib/file.c lines 126-144).  The caller's
buffer is a byte list; a successful reply of `r` bytes overwrites its
first `r` bytes with the server's reply bytes (`memmove`, line 142); a
negative reply is returned with the caller's buffer untouched; the
asserts of lines 140-141 fail as a panic. -/
def devfile_read (env : ReadEnv) (fileid : Int) (callerBuf : List Nat) (n : Nat)
    (st : ClientState) : (Option Int × List Nat) × ClientState :=
  let st1 := { st with
    buf := { st.buf with read_req_fileid := fileid, read_req_n := n }
    sent := st.sent ++ [FSREQ_READ] }
  let r := env.fsipc_read
  if r < 0 then ((some r, callerBuf), st1)
  else if r ≤ (n : Int) ∧ r ≤ (PGSIZE : Int) then
    ((some r, (List.range r.toNat).map env.ret_buf ++ callerBuf.drop r.toNat), st1)
  else ((none, callerBuf), st1)

/-- The caller-supplied `struct Stat` record (fields used by
`devfile_stat`). -/
structure Stat where
  st_name : List Char
  st_size : Int
  st_isdir : Int
deriving DecidableEq

/-- Oracle outcomes for one `devfile_stat` call: the server's reply and
the fields it left in `fsipcbuf.statRet`. -/
structure StatEnv where
  fsipc_stat : Int
  ret_name : List Char
  ret_size : Int
  ret_isdir : Int
deriving DecidableEq

/-- Embedding of `devfile_stat` (lib/file.c lines 181-193): send
`FSREQ_STAT`; a negative reply is returned with the caller's `Stat`
record untouched; on success the name, size and directory flag from the
reply overwrite the record and 0 is returned. -/
def devfile_stat (env : StatEnv) (fileid : Int) (stat0 : Stat)
    (st : ClientState) : (Int × Stat) × ClientState :=
  let st1 := { st with
    buf := { st.buf with stat_req_fileid := fileid }
    sent := st.sent ++ [FSREQ_STAT] }
  if env.fsipc_stat < 0 then
    ((env.fsipc_stat, stat0), st1)
  else
    ((0, { st_name := env.ret_name, st_size := env.ret_size,
           st_isdir := env.ret_isdir }), st1)

/-! ### Tokenizer lemmas -/

lemma length_dropWhile_le (p : Char → Bool) (l : List Char) :
    (l.dropWhile p).length ≤ l.length := by
  have h := congrArg List.length (List.takeWhile_append_dropWhile p l)
  rw [List.length_append] at h
  omega

lemma isWS_head_false {buf : List Char} {c : Char} {cs : List Char}
    (h : buf.dropWhile isWS = c :: cs) : isWS c = false := by
  induction buf with
  | nil => simp [List.dropWhile] at h
  | cons x xs ih =>
    rw [List.dropWhile_cons] at h
    by_cases hx : isWS x
    · rw [if_pos hx] at h; exact ih h
    · rw [if_neg hx] at h
      cases h
      simpa using hx

lemma rest_length_lt {buf : List Char} {c : Char} {cs : List Char}
    (h : buf.dropWhile isWS = c :: cs) :
    ((c :: cs).dropWhile (fun x => !(isWS x))).length < buf.length := by
  have hc : isWS c = false := isWS_head_false h
  have h1 : (c :: cs).length ≤ buf.length := by
    have h2 := length_dropWhile_le isWS buf
    rw [h] at h2
    exact h2
  have h3 : ((c :: cs).dropWhile (fun x => !(isWS x))) =
      cs.dropWhile (fun x => !(isWS x)) := by
    rw [List.dropWhile_cons, if_pos (by simp [hc])]
  have h4 : (cs.dropWhile (fun x => !(isWS x))).length ≤ cs.length :=
    length_dropWhile_le _ cs
  rw [h3]
  simp only [List.length_cons] at h1
  omega

lemma splitF_succ (fuel : Nat) (buf : List Char) :
    splitF (fuel + 1) buf =
      match buf.dropWhile isWS with
      | [] => []
      | c :: cs =>
        (c :: cs).takeWhile (fun x => !(isWS x)) ::
          splitF fuel ((c :: cs).dropWhile (fun x => !(isWS x))) := rfl

lemma splitWS_def (buf : List Char) : splitWS buf = splitF (buf.length + 1) buf := rfl

lemma splitF_fuel (f1 : Nat) : ∀ (f2 : Nat) (buf : List Char),
    buf.length < f1 → buf.length < f2 → splitF f1 buf = splitF f2 buf := by
  induction f1 with
  | zero => intro f2 buf h1 h2; omega
  | succ f1 ih =>
    intro f2 buf h1 h2
    cases f2 with
    | zero => omega
    | succ f2 =>
      cases hbuf : buf.dropWhile isWS with
      | nil => simp only [splitF_succ, hbuf]
      | cons c cs =>
        have hlt := rest_length_lt hbuf
        simp only [splitF_succ, hbuf]
        rw [ih f2 _ (by omega) (by omega)]

lemma splitWS_cons {buf : List Char} {c : Char} {cs : List Char}
    (h : buf.dropWhile isWS = c :: cs) :
    splitWS buf = (c :: cs).takeWhile (fun x => !(isWS x)) ::
      splitWS ((c :: cs).dropWhile (fun x => !(isWS x))) := by
  have hlt := rest_length_lt h
  have e1 : splitWS buf = (c :: cs).takeWhile (fun x => !(isWS x)) ::
      splitF buf.length ((c :: cs).dropWhile (fun x => !(isWS x))) := by
    simp only [splitWS_def, splitF_succ, h]
  rw [e1, splitWS_def,
    splitF_fuel buf.length (((c :: cs).dropWhile (fun x => !(isWS x))).length + 1)
      ((c :: cs).dropWhile (fun x => !(isWS x))) (by omega) (by omega)]

lemma splitWS_nil {buf : List Char} (h : buf.dropWhile isWS = []) :
    splitWS buf = [] := by
  simp only [splitWS_def, splitF_succ, h]

lemma parseTokens_succ (fuel : Nat) (buf : List Char) (argc : Nat) :
    parseTokens (fuel + 1) buf argc =
      match buf.dropWhile isWS with
      | [] => some []
      | c :: cs =>
        if argc = MAXARGS - 1 then none
        else
          (parseTokens fuel ((c :: cs).dropWhile (fun x => !(isWS x))) (argc + 1)).map
            (fun ts => (c :: cs).takeWhile (fun x => !(isWS x)) :: ts) := rfl

/-- Characterization of the capped tokenizer: on sufficient fuel and a
legal running argument count, it produces the whitespace-split token list
when that fits in `MAXARGS - 1` slots and reports overflow (`none`)
otherwise. -/
lemma parseTokens_eq (fuel : Nat) : ∀ (buf : List Char) (argc : Nat),
    buf.length < fuel → argc ≤ MAXARGS - 1 →
    parseTokens fuel buf argc =
      if argc + (splitWS buf).length ≤ MAXARGS - 1 then some (splitWS buf)
      else none := by
  induction fuel with
  | zero => intro buf argc h1 h2; omega
  | succ fuel ih =>
    intro buf argc hlen hargc
    cases hbuf : buf.dropWhile isWS with
    | nil =>
      rw [splitWS_nil hbuf]
      simp only [parseTokens_succ, hbuf, List.length_nil, Nat.add_zero]
      rw [if_pos hargc]
    | cons c cs =>
      rw [splitWS_cons hbuf]
      have hlt := rest_length_lt hbuf
      simp only [parseTokens_succ, hbuf]
      by_cases hover : argc = MAXARGS - 1
      · rw [if_pos hover, if_neg (by simp only [List.length_cons]; omega)]
      · rw [if_neg hover]
        rw [ih _ (argc + 1) (by omega) (by simp only [MAXARGS] at hover hargc ⊢; omega)]
        by_cases hfit : argc + 1 +
            (splitWS ((c :: cs).dropWhile (fun x => !(isWS x)))).length ≤ MAXARGS - 1
        · rw [if_pos hfit, if_pos (by simp only [List.length_cons]; omega)]
          rfl
        · rw [if_neg hfit, if_neg (by simp only [List.length_cons]; omega)]
          rfl

/-! ### Concrete inputs used by witnesses and counterexamples -/

/-- A trap frame suspended in a debug trap with single-step already on. -/
def tfW : Trapframe := ⟨[], 0, 0, T_DEBUG, 0, 0, 0, 0x100, 0, 0⟩

/-- A trap frame suspended in a debug trap with a zero flags register. -/
def tfDbg : Trapframe := ⟨[], 0, 0, T_DEBUG, 0, 0, 0, 0, 0, 0⟩

/-- `tfDbg` after `mon_step`: the trap flag (bit 8) is set. -/
def tfDbgStep : Trapframe := ⟨[], 0, 0, T_DEBUG, 0, 0, 0, 0x100, 0, 0⟩

/-- `tfDbgStep` after `mon_exitstep`: the resume flag (bit 16) is set. -/
def tfDbgExit : Trapframe := ⟨[], 0, 0, T_DEBUG, 0, 0, 0, 0x10000, 0, 0⟩

/-- A trap frame suspended in a breakpoint trap with single-step on. -/
def tfBrk : Trapframe := ⟨[], 0, 0, T_BRKPT, 0, 0, 0, 0x100, 0, 0⟩

/-- A trap frame whose cause (vector 0, divide error) is neither the debug
nor the breakpoint trap, with the trap flag bit set. -/
def tfDivide : Trapframe := ⟨[], 0, 0, 0, 0, 0, 0, 0x100, 0, 0⟩

/-- C2.  The spec gives `mon_step` and `mon_exitstep` one shared trap-cause
precondition (panic exactly when the cause is neither the debug trap nor
the breakpoint trap).  The code violates it in `mon_exitstep`: its guard
`(tf->tf_trapno != T_DEBUG) && (tf->tf_trapno == T_BRKPT)` panics exactly
on a breakpoint trap and accepts every non-breakpoint cause.  Evaluated
here at the failing inputs: at a breakpoint trap `mon_step` succeeds but
`mon_exitstep` panics (against its own message "Not already in debugging
mode"), and at a divide-error trap `mon_exitstep` does not panic although
the cause is neither debug nor breakpoint. -/
theorem exitstep_trap_cause_check_buggy :
    (mon_step tfBrk).isSome = true ∧
    mon_exitstep tfBrk = none ∧
    (mon_exitstep tfDivide).isSome = true := by decide

/-- C7.  Under the respective non-panic preconditions, `mon_step` sets the
trap flag bit (bit 8, `0x100`) and clears the resume flag bit (bit 16,
`0x10000`) of the flags register, `mon_exitstep` clears the trap flag bit
and sets the resume flag bit, and both leave every other bit of the
32-bit flags register and every other field of the trap frame
unchanged. -/
theorem step_controller_flag_effects (tf : Trapframe) (h32 : tf.tf_eflags < 2 ^ 32) :
    ((tf.tf_trapno = T_DEBUG ∨ tf.tf_trapno = T_BRKPT) →
      ∃ tf', mon_step tf = some (-2, tf') ∧
        tf'.tf_eflags.testBit 8 = true ∧
        tf'.tf_eflags.testBit 16 = false ∧
        (∀ i, i ≠ 8 → i ≠ 16 → tf'.tf_eflags.testBit i = tf.tf_eflags.testBit i) ∧
        tf'.tf_regs = tf.tf_regs ∧ tf'.tf_es = tf.tf_es ∧ tf'.tf_ds = tf.tf_ds ∧
        tf'.tf_trapno = tf.tf_trapno ∧ tf'.tf_err = tf.tf_err ∧
        tf'.tf_eip = tf.tf_eip ∧ tf'.tf_cs = tf.tf_cs ∧
        tf'.tf_esp = tf.tf_esp ∧ tf'.tf_ss = tf.tf_ss) ∧
    (¬ (tf.tf_trapno ≠ T_DEBUG ∧ tf.tf_trapno = T_BRKPT) →
      tf.tf_eflags.testBit 8 = true →
      ∃ tf', mon_exitstep tf = some (-2, tf') ∧
        tf'.tf_eflags.testBit 8 = false ∧
        tf'.tf_eflags.testBit 16 = true ∧
        (∀ i, i ≠ 8 → i ≠ 16 → tf'.tf_eflags.testBit i = tf.tf_eflags.testBit i) ∧
        tf'.tf_regs = tf.tf_regs ∧ tf'.tf_es = tf.tf_es ∧ tf'.tf_ds = tf.tf_ds ∧
        tf'.tf_trapno = tf.tf_trapno ∧ tf'.tf_err = tf.tf_err ∧
        tf'.tf_eip = tf.tf_eip ∧ tf'.tf_cs = tf.tf_cs ∧
        tf'.tf_esp = tf.tf_esp ∧ tf'.tf_ss = tf.tf_ss) := by
  constructor
  · intro htr
    have hcond : ¬ (tf.tf_trapno ≠ T_DEBUG ∧ tf.tf_trapno ≠ T_BRKPT) := by tauto
    refine ⟨{ tf with tf_eflags := (tf.tf_eflags ||| 0x100) &&& 0xFFFEFFFF },
      ?_, ?_, ?_, ?_, rfl, rfl, rfl, rfl, rfl, rfl, rfl, rfl, rfl⟩
    · simp only [mon_step, if_neg hcond]
    · rw [step_eflags_bits tf.tf_eflags h32 8]; rfl
    · rw [step_eflags_bits tf.tf_eflags h32 16]; rfl
    · intro i h8 h16
      rw [step_eflags_bits tf.tf_eflags h32 i, if_neg h8, if_neg h16]
  · intro htr h8set
    have hg : ¬ (tf.tf_eflags &&& 0x100 = 0) := by
      rw [land_c100_eq_zero_iff, h8set]
      simp
    refine ⟨{ tf with tf_eflags := (tf.tf_eflags ||| 0x10000) &&& 0xFFFFFEFF },
      ?_, ?_, ?_, ?_, rfl, rfl, rfl, rfl, rfl, rfl, rfl, rfl, rfl⟩
    · simp only [mon_exitstep, if_neg htr, if_neg hg]
    · rw [exitstep_eflags_bits tf.tf_eflags h32 8]; rfl
    · rw [exitstep_eflags_bits tf.tf_eflags h32 16]; rfl
    · intro i h8 h16
      rw [exitstep_eflags_bits tf.tf_eflags h32 i, if_neg h16, if_neg h8]

/-- Witness for C7: both non-panic preconditions discharged at the
concrete trap frame `tfW` (debug trap, trap flag set). -/
theorem step_controller_flag_effects_witness :
    (tfW.tf_eflags < 2 ^ 32 ∧ (tfW.tf_trapno = T_DEBUG ∨ tfW.tf_trapno = T_BRKPT) ∧
      ¬ (tfW.tf_trapno ≠ T_DEBUG ∧ tfW.tf_trapno = T_BRKPT) ∧
      tfW.tf_eflags.testBit 8 = true) ∧
    (∃ tf', mon_step tfW = some (-2, tf') ∧ tf'.tf_eflags.testBit 8 = true) ∧
    (∃ tf', mon_exitstep tfW = some (-2, tf') ∧ tf'.tf_eflags.testBit 8 = false) := by
  refine ⟨⟨by decide, by decide, by decide, by decide⟩, ?_, ?_⟩
  · obtain ⟨tf', h1, h2, -⟩ :=
      (step_controller_flag_effects tfW (by decide)).1 (by decide)
    exact ⟨tf', h1, h2⟩
  · obtain ⟨tf', h1, h2, -⟩ :=
      (step_controller_flag_effects tfW (by decide)).2 (by decide) (by decide)
    exact ⟨tf', h1, h2⟩

/-- Counterexample to C8 as stated: starting from a debug trap with a zero
flags register, `mon_step` then `mon_exitstep` leaves the flags register
at `0x10000`, not at its original value — the resume flag bit (bit 16)
ends up set even though it started clear, so enable-then-disable does not
round-trip the two toggled bits. -/
theorem step_exitstep_not_roundtrip :
    mon_step tfDbg = some (-2, tfDbgStep) ∧
    mon_exitstep tfDbgStep = some (-2, tfDbgExit) ∧
    tfDbgExit.tf_eflags ≠ tfDbg.tf_eflags ∧
    tfDbgExit.tf_eflags.testBit 16 ≠ tfDbg.tf_eflags.testBit 16 := by decide

/-- C8 as amended.  Under trap cause `T_DEBUG`, enable-then-disable leaves
the flags register with the trap flag bit clear and the resume flag bit
set — their post-disable values, not necessarily their original values:
the two toggled bits regain their original values exactly when the trap
bit started clear and the resume bit started set — while every other bit
is unchanged; and calling disable when the trap flag bit is not set is a
fatal error (panic), not performed. -/
theorem step_then_exitstep_effect (tf : Trapframe) (h32 : tf.tf_eflags < 2 ^ 32)
    (hdbg : tf.tf_trapno = T_DEBUG) :
    (∃ tf1 tf2, mon_step tf = some (-2, tf1) ∧ mon_exitstep tf1 = some (-2, tf2) ∧
      tf2.tf_eflags.testBit 8 = false ∧ tf2.tf_eflags.testBit 16 = true ∧
      (∀ i, i ≠ 8 → i ≠ 16 → tf2.tf_eflags.testBit i = tf.tf_eflags.testBit i) ∧
      ((tf2.tf_eflags.testBit 8 = tf.tf_eflags.testBit 8 ∧
        tf2.tf_eflags.testBit 16 = tf.tf_eflags.testBit 16) ↔
        (tf.tf_eflags.testBit 8 = false ∧ tf.tf_eflags.testBit 16 = true))) ∧
    (tf.tf_eflags.testBit 8 = false → mon_exitstep tf = none) := by
  constructor
  · have hcond : ¬ (tf.tf_trapno ≠ T_DEBUG ∧ tf.tf_trapno ≠ T_BRKPT) := by
      rw [hdbg]; tauto
    set e1 : Nat := (tf.tf_eflags ||| 0x100) &&& 0xFFFEFFFF with he1
    have h32a : e1 < 2 ^ 32 := masked_lt_32 _ _ (by norm_num)
    have hb1 : ∀ i, e1.testBit i =
        if i = 8 then true else if i = 16 then false else tf.tf_eflags.testBit i :=
      fun i => step_eflags_bits tf.tf_eflags h32 i
    have hcond2 : ¬ ((tf.tf_trapno : Nat) ≠ T_DEBUG ∧ (tf.tf_trapno : Nat) = T_BRKPT) := by
      rw [hdbg]; simp [T_DEBUG, T_BRKPT]
    have hg : ¬ (e1 &&& 0x100 = 0) := by
      rw [land_c100_eq_zero_iff, hb1 8]
      simp
    refine ⟨{ tf with tf_eflags := e1 },
      { tf with tf_eflags := (e1 ||| 0x10000) &&& 0xFFFFFEFF }, ?_, ?_, ?_, ?_, ?_, ?_⟩
    · simp only [mon_step, if_neg hcond, he1]
    · simp only [mon_exitstep, if_neg hcond2, if_neg hg]
    · rw [exitstep_eflags_bits e1 h32a 8]; rfl
    · rw [exitstep_eflags_bits e1 h32a 16]; rfl
    · intro i h8 h16
      rw [exitstep_eflags_bits e1 h32a i, if_neg h16, if_neg h8, hb1 i,
        if_neg h8, if_neg h16]
    · rw [exitstep_eflags_bits e1 h32a 8, exitstep_eflags_bits e1 h32a 16]
      simp only [if_pos rfl]
      rw [if_neg (by norm_num : (16 : Nat) ≠ 8)]
      constructor
      · intro h
        exact ⟨h.1.symm, h.2.symm⟩
      · intro h
        exact ⟨h.1.symm, h.2.symm⟩
  · intro h8clear
    have hcond2 : ¬ ((tf.tf_trapno : Nat) ≠ T_DEBUG ∧ (tf.tf_trapno : Nat) = T_BRKPT) := by
      rw [hdbg]; simp [T_DEBUG, T_BRKPT]
    have hg : tf.tf_eflags &&& 0x100 = 0 := (land_c100_eq_zero_iff _).mpr h8clear
    simp only [mon_exitstep, if_neg hcond2, if_pos hg]

/-- Witness for C8's amended theorem at the concrete trap frame `tfW`
(debug trap, trap flag already set): the sequence completes, and the
disable-without-enable rejection is exercised at `tfDbg` via the
flags-zero frame. -/
theorem step_then_exitstep_effect_witness :
    (tfW.tf_eflags < 2 ^ 32 ∧ tfW.tf_trapno = T_DEBUG) ∧
    (∃ tf1 tf2, mon_step tfW = some (-2, tf1) ∧ mon_exitstep tf1 = some (-2, tf2)) ∧
    (tfDbg.tf_eflags < 2 ^ 32 ∧ tfDbg.tf_trapno = T_DEBUG ∧
      tfDbg.tf_eflags.testBit 8 = false ∧ mon_exitstep tfDbg = none) := by
  refine ⟨⟨by decide, by decide⟩, ?_, ⟨by decide, by decide, by decide, ?_⟩⟩
  · obtain ⟨tf1, tf2, h1, h2, -⟩ :=
      (step_then_exitstep_effect tfW (by decide) (by decide)).1
    exact ⟨tf1, tf2, h1, h2⟩
  · exact (step_then_exitstep_effect tfDbg (by decide) (by decide)).2 (by decide)

/-- A kernel-oracle environment for concrete dispatcher runs; its memory
and resolver are never consulted by the commands exercised. -/
def envC : KernEnv := ⟨fun _ => 0, fun _ => none, 0, 0⟩

/-- Counterexample to C1 as stated: dispatching the line `step` on a
debug-trap frame makes `runcmd` return the resume sentinel `-2`, and the
monitor loop thereupon breaks (the loop's test is `runcmd(buf, tf) < 0`,
which `-2` satisfies) instead of continuing to the next `readline`
iteration. -/
theorem monitor_exits_on_resume_sentinel :
    (runcmd envC ("step".toList) tfDbg).2 = some (-2, tfDbgStep) ∧
    monitorLoop envC [some ("step".toList)] tfDbg = MonOutcome.exited tfDbgStep := by
  constructor
  · decide
  · decide

/-- C1 as amended.  The monitor loop terminates exactly when the
dispatcher's return value is negative: the exit sentinel (negative one)
and the resume sentinel (negative two) both break the loop — for a
command whose handler returns `-2` (step, exitstep) the loop breaks
rather than continuing — and the loop continues to the next readline
iteration exactly when the return value is non-negative. -/
theorem monitor_loop_breaks_iff_negative (env : KernEnv) (buf : List Char)
    (tf tf' : Trapframe) (r : Int) (rest : List (Option (List Char)))
    (h : (runcmd env buf tf).2 = some (r, tf')) :
    (r < 0 → monitorLoop env (some buf :: rest) tf = MonOutcome.exited tf') ∧
    (0 ≤ r → monitorLoop env (some buf :: rest) tf = monitorLoop env rest tf') := by
  constructor
  · intro hr
    simp only [monitorLoop, h, if_pos hr]
  · intro hr
    simp only [monitorLoop, h]
    rw [if_neg (by omega)]

/-- Witness for C1's amended theorem: a concrete non-negative dispatch
(`help`, status 0) continues the loop, applied at an explicit input. -/
theorem monitor_loop_breaks_iff_negative_witness :
    (runcmd envC ("help".toList) tfDbg).2 = some (0, tfDbg) ∧
    monitorLoop envC [some ("help".toList)] tfDbg = monitorLoop envC [] tfDbg := by
  have h : (runcmd envC ("help".toList) tfDbg).2 = some (0, tfDbg) := by decide
  exact ⟨h,
    (monitor_loop_breaks_iff_negative envC ("help".toList) tfDbg tfDbg 0 [] h).2 (by decide)⟩

/-- C9.  The dispatcher accepts at most `MAXARGS - 1 = 15` tokens on one
line: a line splitting into 15 or fewer whitespace-separated tokens never
takes the overflow path, while 16 or more tokens make `runcmd` print the
too-many-arguments diagnostic reporting a maximum of `MAXARGS = 16`,
invoke no command handler, and return 0 with the trap frame untouched —
the same status an ordinary successful command yields. -/
theorem dispatcher_token_limit (env : KernEnv) (buf : List Char) (tf : Trapframe) :
    ((splitWS buf).length ≤ MAXARGS - 1 →
      ∀ m, CmdEvent.tooManyArgs m ∉ (runcmd env buf tf).1) ∧
    (MAXARGS - 1 < (splitWS buf).length →
      runcmd env buf tf = ([CmdEvent.tooManyArgs MAXARGS], some (0, tf)) ∧
      ∀ name, CmdEvent.invoked name ∉ (runcmd env buf tf).1) := by
  have hp := parseTokens_eq (buf.length + 1) buf 0 (by omega) (by simp [MAXARGS])
  constructor
  · intro hfit m
    rw [if_pos (by omega)] at hp
    cases hsp : splitWS buf with
    | nil =>
      rw [hsp] at hp
      simp only [runcmd, hp]
      simp
    | cons a rest =>
      rw [hsp] at hp
      cases hfind : (commands env).find? (fun c => c.1.toList = a) with
      | none =>
        simp only [runcmd, hp, hfind]
        simp
      | some c =>
        simp only [runcmd, hp, hfind]
        simp
  · intro hover
    rw [if_neg (by omega)] at hp
    refine ⟨?_, ?_⟩
    · simp only [runcmd, hp]
    · intro name
      simp only [runcmd, hp]
      simp

/-- Witness for C9 at a concrete 16-token line: the overflow path is
taken, the diagnostic names 16, and the dispatch returns 0 with no
command invoked. -/
theorem dispatcher_token_limit_witness :
    MAXARGS - 1 < (splitWS ("a b c d e f g h i j k l m n o p".toList)).length ∧
    runcmd envC ("a b c d e f g h i j k l m n o p".toList) tfDbg =
      ([CmdEvent.tooManyArgs MAXARGS], some (0, tfDbg)) := by
  have h : MAXARGS - 1 < (splitWS ("a b c d e f g h i j k l m n o p".toList)).length := by
    decide
  exact ⟨h, ((dispatcher_token_limit envC ("a b c d e f g h i j k l m n o p".toList)
    tfDbg).2 h).1⟩

/-- C6.  For every synthetic frame-pointer chain of length `k` whose
`k`-th link is zero, with all `k` return addresses resolvable, the
unwinder emits exactly `k` frames in innermost-to-outermost order, where
frame `i` sits at the `i`-th chain entry `mem^[i] ebp`, carries the
return address `mem (ebp_i + 4)`, the five argument words at offsets
`+8 .. +24`, and the next frame pointer is the word at the frame pointer
itself (the chain link); and a symbol-resolution failure at any position
aborts the whole walk with a panic (`none`). -/
theorem unwinder_chain (mem : Nat → Nat) (dbg : Nat → Option Eipdebuginfo)
    (k : Nat) : ∀ ebp : Nat,
    (∀ i, i < k → mem^[i] ebp ≠ 0) →
    mem^[k] ebp = 0 →
    ((∀ i, i < k → (dbg (mem (mem^[i] ebp + 4))).isSome = true) →
      backtraceLoop mem dbg k ebp =
        some ((List.range k).map (fun i =>
          mkFrame mem ((dbg (mem (mem^[i] ebp + 4))).getD default) (mem^[i] ebp)))) ∧
    (∀ j, j < k → (∀ i, i < j → (dbg (mem (mem^[i] ebp + 4))).isSome = true) →
      dbg (mem (mem^[j] ebp + 4)) = none →
      backtraceLoop mem dbg k ebp = none) := by
  induction k with
  | zero =>
    intro ebp hnz hz
    rw [Function.iterate_zero_apply] at hz
    constructor
    · intro _
      simp only [backtraceLoop, if_pos hz, List.range_zero, List.map_nil]
    · intro j hj
      omega
  | succ k ih =>
    intro ebp hnz hz
    have hebp : ebp ≠ 0 := by
      have h0 := hnz 0 (Nat.succ_pos k)
      rwa [Function.iterate_zero_apply] at h0
    have hnz' : ∀ i, i < k → mem^[i] (mem ebp) ≠ 0 := by
      intro i hi
      have h := hnz (i + 1) (by omega)
      rwa [Function.iterate_succ_apply] at h
    have hz' : mem^[k] (mem ebp) = 0 := by
      rw [← Function.iterate_succ_apply]
      exact hz
    constructor
    · intro hres
      have h0 := hres 0 (Nat.succ_pos k)
      rw [Function.iterate_zero_apply] at h0
      obtain ⟨info, hinfo⟩ := Option.isSome_iff_exists.mp h0
      have hres' : ∀ i, i < k → (dbg (mem (mem^[i] (mem ebp) + 4))).isSome = true := by
        intro i hi
        have h := hres (i + 1) (by omega)
        rwa [Function.iterate_succ_apply] at h
      have hrec := (ih (mem ebp) hnz' hz').1 hres'
      simp only [backtraceLoop, if_neg hebp, hinfo, hrec, Option.map_some']
      refine congrArg some ?_
      rw [List.range_succ_eq_map, List.map_cons, List.map_map]
      refine congrArg₂ List.cons ?_ ?_
      · simp only [Function.iterate_zero_apply, hinfo, Option.getD_some]
      · apply List.map_congr_left
        intro a _
        simp only [Function.comp_apply, Function.iterate_succ_apply]
    · intro j hj hpre hfail
      cases j with
      | zero =>
        rw [Function.iterate_zero_apply] at hfail
        simp only [backtraceLoop, if_neg hebp, hfail]
      | succ j' =>
        have h0 : (dbg (mem (ebp + 4))).isSome = true := by
          have h := hpre 0 (Nat.succ_pos j')
          rwa [Function.iterate_zero_apply] at h
        obtain ⟨info, hinfo⟩ := Option.isSome_iff_exists.mp h0
        have hpre' : ∀ i, i < j' → (dbg (mem (mem^[i] (mem ebp) + 4))).isSome = true := by
          intro i hi
          have h := hpre (i + 1) (by omega)
          rwa [Function.iterate_succ_apply] at h
        have hfail' : dbg (mem (mem^[j'] (mem ebp) + 4)) = none := by
          rwa [Function.iterate_succ_apply] at hfail
        have hrec := (ih (mem ebp) hnz' hz').2 j' (by omega) hpre' hfail'
        simp only [backtraceLoop, if_neg hebp, hinfo, hrec, Option.map_none']

/-- A concrete two-frame memory image: the frame at 100 links to the
frame at 200, which links to 0. -/
def memC : Nat → Nat := fun a =>
  if a = 100 then 200 else
  if a = 104 then 11 else
  if a = 200 then 0 else
  if a = 204 then 22 else 7

/-- A resolver that succeeds on every address. -/
def dbgC : Nat → Option Eipdebuginfo := fun _ => some default

/-- Witness for C6 at the concrete two-frame chain starting at 100. -/
theorem unwinder_chain_witness :
    ((∀ i, i < 2 → memC^[i] 100 ≠ 0) ∧ memC^[2] 100 = 0 ∧
      (∀ i, i < 2 → (dbgC (memC (memC^[i] 100 + 4))).isSome = true)) ∧
    backtraceLoop memC dbgC 2 100 =
      some ((List.range 2).map (fun i =>
        mkFrame memC ((dbgC (memC (memC^[i] 100 + 4))).getD default) (memC^[i] 100))) := by
  refine ⟨⟨by decide, by decide, by decide⟩, ?_⟩
  exact (unwinder_chain memC dbgC 2 100 (by decide) (by decide)).1 (by decide)

/-! ### File-client claims -/

/-- An initial client state: empty buffer, nothing sent, nothing
allocated or closed. -/
def st0 : ClientState := ⟨⟨[], 0, 0, 0, 0, 0, [], 0⟩, [], 0, []⟩

/-- C4.  A path of `MAXPATHLEN` or more characters makes `open` return
`-E_BAD_PATH` with the client state untouched: the descriptor allocator
is not invoked, no request is sent, and the shared request buffer is not
written. -/
theorem open_rejects_long_path (env : OpenEnv) (path : List Char) (mode : Int)
    (st : ClientState) (h : MAXPATHLEN ≤ path.length) :
    openF env path mode st = (-E_BAD_PATH, st) ∧
    (openF env path mode st).2.allocCalls = st.allocCalls ∧
    (openF env path mode st).2.sent = st.sent ∧
    (openF env path mode st).2.buf = st.buf := by
  have e : openF env path mode st = (-E_BAD_PATH, st) := by
    simp only [openF, if_pos h]
  exact ⟨e, by rw [e], by rw [e], by rw [e]⟩

/-- A path of exactly `MAXPATHLEN` characters. -/
def pathLong : List Char := List.replicate MAXPATHLEN 'a'

/-- An open-call environment whose allocator and server both succeed. -/
def envOpenOk : OpenEnv := ⟨Except.ok ⟨0, 0⟩, 0⟩

/-- Witness for C4 at the concrete `MAXPATHLEN`-character path. -/
theorem open_rejects_long_path_witness :
    MAXPATHLEN ≤ pathLong.length ∧ openF envOpenOk pathLong 0 st0 = (-E_BAD_PATH, st0) := by
  have h : MAXPATHLEN ≤ pathLong.length := by
    simp [pathLong]
  exact ⟨h, (open_rejects_long_path envOpenOk pathLong 0 st0 h).1⟩

/-- C5.  When the allocator yields descriptor `fd` and the path is legal,
a negative Gateway reply makes `open` release the descriptor with
`fd_close(fd, 0)` (flush flag zero) and return the reply unchanged, while
a non-negative reply makes it return the descriptor's index
`fd2num(fd)`. -/
theorem open_propagates_gateway_result (env : OpenEnv) (path : List Char)
    (mode : Int) (st : ClientState) (fd : Fd)
    (halloc : env.fd_alloc = Except.ok fd) (hlen : path.length < MAXPATHLEN) :
    (env.fsipc_open < 0 →
      (openF env path mode st).1 = env.fsipc_open ∧
      (openF env path mode st).2.closed = st.closed ++ [(fd.num, 0)]) ∧
    (0 ≤ env.fsipc_open → (openF env path mode st).1 = fd2num fd) := by
  have hn : ¬ (MAXPATHLEN ≤ path.length) := by omega
  constructor
  · intro hneg
    simp only [openF, if_neg hn, halloc, if_pos hneg]
    exact ⟨trivial, trivial⟩
  · intro hpos
    simp only [openF, if_neg hn, halloc,
      if_neg (by omega : ¬ env.fsipc_open < 0)]

/-- The concrete descriptor used by the C5 witness. -/
def fdW : Fd := ⟨3, 7⟩

/-- An open-call environment whose allocator succeeds and whose server
replies with the error `-5`. -/
def envOpenErr : OpenEnv := ⟨Except.ok fdW, -5⟩

/-- Witness for C5 at a concrete one-character path and failing server. -/
theorem open_propagates_gateway_result_witness :
    (envOpenErr.fd_alloc = Except.ok fdW ∧ ("p".toList).length < MAXPATHLEN ∧
      envOpenErr.fsipc_open < 0) ∧
    (openF envOpenErr ("p".toList) 0 st0).1 = envOpenErr.fsipc_open ∧
    (openF envOpenErr ("p".toList) 0 st0).2.closed = st0.closed ++ [(fdW.num, 0)] := by
  obtain ⟨h1, h2⟩ :=
    (open_propagates_gateway_result envOpenErr ("p".toList) 0 st0 fdW rfl
      (by decide)).1 (by decide)
  exact ⟨⟨rfl, by decide, by decide⟩, h1, h2⟩

/-- C3.  The write request's payload capacity is exactly
`PGSIZE - (sizeof(int) + sizeof(size_t))`; a request of more than that
many bytes is silently truncated to exactly the capacity (the request
still goes out and a successful reply is returned, not an error); and a
successful return value never exceeds the requested `n`. -/
theorem devfile_write_truncates (env : WriteEnv) (fileid : Int) (bufF : Nat → Nat)
    (n : Nat) (st : ClientState) :
    max_buf_size = PGSIZE - (sizeof_int + sizeof_size_t) ∧
    (max_buf_size < n →
      (devfile_write env fileid bufF n st).2.buf.write_req_n = max_buf_size ∧
      (devfile_write env fileid bufF n st).2.sent = st.sent ++ [FSREQ_WRITE] ∧
      (0 ≤ env.fsipc_write → env.fsipc_write ≤ (max_buf_size : Int) →
        (devfile_write env fileid bufF n st).1 = some env.fsipc_write)) ∧
    (∀ r : Int, (devfile_write env fileid bufF n st).1 = some r → 0 ≤ r →
      r ≤ (n : Int)) := by
  have hres : (devfile_write env fileid bufF n st).1 =
      (if env.fsipc_write < 0 then some env.fsipc_write
       else if env.fsipc_write ≤ (n : Int) ∧ env.fsipc_write ≤ (PGSIZE : Int)
       then some env.fsipc_write else none) := by
    simp only [devfile_write]
    by_cases h1 : env.fsipc_write < 0
    · rw [if_pos h1, if_pos h1]
    · rw [if_neg h1, if_neg h1]
      by_cases h2 : env.fsipc_write ≤ (n : Int) ∧ env.fsipc_write ≤ (PGSIZE : Int)
      · rw [if_pos h2, if_pos h2]
      · rw [if_neg h2, if_neg h2]
  have hst : (devfile_write env fileid bufF n st).2 = { st with
      buf := { st.buf with
        write_req_fileid := fileid
        write_req_n := if max_buf_size < n then max_buf_size else n
        write_req_buf :=
          (List.range (if max_buf_size < n then max_buf_size else n)).map bufF }
      sent := st.sent ++ [FSREQ_WRITE] } := by
    simp only [devfile_write]
    by_cases h1 : env.fsipc_write < 0
    · rw [if_pos h1]
    · rw [if_neg h1]
      by_cases h2 : env.fsipc_write ≤ (n : Int) ∧ env.fsipc_write ≤ (PGSIZE : Int)
      · rw [if_pos h2]
      · rw [if_neg h2]
  refine ⟨rfl, ?_, ?_⟩
  · intro hbig
    refine ⟨?_, ?_, ?_⟩
    · rw [hst]
      simp only [if_pos hbig]
    · rw [hst]
    · intro hpos hle
      rw [hres, if_neg (by omega), if_pos ?_]
      constructor
      · have hc : (max_buf_size : Int) ≤ (n : Int) := by
          exact_mod_cast Nat.le_of_lt hbig
        omega
      · have hc : (max_buf_size : Int) ≤ (PGSIZE : Int) := by decide
        omega
  · intro r hr hpos
    rw [hres] at hr
    by_cases h1 : env.fsipc_write < 0
    · rw [if_pos h1] at hr
      have : env.fsipc_write = r := by
        simpa using hr
      omega
    · rw [if_neg h1] at hr
      by_cases h2 : env.fsipc_write ≤ (n : Int) ∧ env.fsipc_write ≤ (PGSIZE : Int)
      · rw [if_pos h2] at hr
        have : env.fsipc_write = r := by
          simpa using hr
        omega
      · rw [if_neg h2] at hr
        simp at hr

/-- A write-call environment whose server reports 100 bytes written. -/
def envWriteOk : WriteEnv := ⟨100⟩

/-- Witness for C3 at a concrete oversized request of 5000 bytes. -/
theorem devfile_write_truncates_witness :
    (max_buf_size < 5000 ∧ (0 : Int) ≤ envWriteOk.fsipc_write ∧
      envWriteOk.fsipc_write ≤ (max_buf_size : Int)) ∧
    (devfile_write envWriteOk 1 (fun _ => 0) 5000 st0).2.buf.write_req_n = max_buf_size ∧
    (devfile_write envWriteOk 1 (fun _ => 0) 5000 st0).1 = some envWriteOk.fsipc_write := by
  obtain ⟨-, h2, -⟩ := devfile_write_truncates envWriteOk 1 (fun _ => 0) 5000 st0
  obtain ⟨ha, -, hc⟩ := h2 (by decide)
  exact ⟨⟨by decide, by decide, by decide⟩, ha, hc (by decide) (by decide)⟩

/-- C10.  A negative Gateway reply leaves all caller-visible output
locations unchanged: `devfile_read` returns the reply without writing a
byte of the caller's buffer, and `devfile_stat` returns the reply without
writing any field of the caller-supplied `Stat` record. -/
theorem read_stat_error_leaves_outputs (renv : ReadEnv) (senv : StatEnv)
    (fid1 fid2 : Int) (callerBuf : List Nat) (n : Nat) (stat0 : Stat)
    (st1 st2 : ClientState) :
    (renv.fsipc_read < 0 →
      (devfile_read renv fid1 callerBuf n st1).1 = (some renv.fsipc_read, callerBuf)) ∧
    (senv.fsipc_stat < 0 →
      (devfile_stat senv fid2 stat0 st2).1 = (senv.fsipc_stat, stat0)) := by
  constructor
  · intro h
    simp only [devfile_read, if_pos h]
  · intro h
    simp only [devfile_stat, if_pos h]

/-- A read-call environment whose server reports the error `-3`. -/
def envReadErr : ReadEnv := ⟨-3, fun _ => 9⟩

/-- A stat-call environment whose server reports the error `-4`. -/
def envStatErr : StatEnv := ⟨-4, [], 0, 0⟩

/-- The caller-supplied `Stat` record used by the C10 witness. -/
def statW : Stat := ⟨['x'], 55, 1⟩

/-- Witness for C10 at concrete failing read and stat calls. -/
theorem read_stat_error_leaves_outputs_witness :
    (envReadErr.fsipc_read < 0 ∧ envStatErr.fsipc_stat < 0) ∧
    (devfile_read envReadErr 1 [5, 6] 2 st0).1 = (some envReadErr.fsipc_read, [5, 6]) ∧
    (devfile_stat envStatErr 2 statW st0).1 = (envStatErr.fsipc_stat, statW) := by
  obtain ⟨h1, h2⟩ :=
    read_stat_error_leaves_outputs envReadErr envStatErr 1 2 [5, 6] 2 statW st0 st0
  exact ⟨⟨by decide, by decide⟩, h1 (by decide), h2 (by decide)⟩
